import Mathlib

/-!
Verification of `dm_control/autowrap/binding_generator.py`.

The Python `BindingGenerator` class parses MuJoCo header text (enum blocks,
`#define`-style declarations, conditional blocks and x-macro tables) into five
ordered, duplicate-rejecting symbol tables, resolves array-size expressions and
typenames against those tables, and emits generated source artifacts.

This file gives a shallow embedding of that code.  Every definition is
translated from `src/dm_control/autowrap/binding_generator.py` except where a
doc comment starts with `Modelled from the spec:`: those embed helpers from
`codegen_util` / `header_parsing` that are part of the repository but absent
from `src/`, following the specification's description of them.

Python dictionaries are embedded as association lists (`Table`), Python values
relevant to this module as `PyVal` (int / bool / str), and Python exceptions as
`Except PyErr`.
-/

/-- Decidable equality for fallible results, so that concrete runs of the
embedded passes can be checked by `decide`. -/
instance {ε α : Type} [DecidableEq ε] [DecidableEq α] : DecidableEq (Except ε α) := fun x y =>
  match x, y with
  | Except.error a, Except.error b =>
    if h : a = b then Decidable.isTrue (congrArg Except.error h)
    else Decidable.isFalse (fun he => by cases he; exact h rfl)
  | Except.ok a, Except.ok b =>
    if h : a = b then Decidable.isTrue (congrArg Except.ok h)
    else Decidable.isFalse (fun he => by cases he; exact h rfl)
  | Except.error a, Except.ok b => Decidable.isFalse (fun he => by cases he)
  | Except.ok a, Except.error b => Decidable.isFalse (fun he => by cases he)

/-- Errors raised by the embedded code: the duplicate-key failure of the
ordered symbol tables, Python's `NameError` (raised by `resolve_size` because
`np` is referenced without `import numpy as np` in the source module), and a
fuel-exhaustion marker standing for Python's `RecursionError` (never reached
with the fuel bounds used here). -/
inductive PyErr where
  | duplicateKey (k : String)
  | nameError (n : String)
  | recursionError
deriving DecidableEq, Repr

/-- The Python values this module stores in its tables: integers, booleans
(the `True` sentinel for valueless declarations) and strings. -/
inductive PyVal where
  | int (n : Int)
  | bool (b : Bool)
  | str (s : String)
deriving DecidableEq, Repr

/-- A resolved or unresolved single array dimension: what `resolve_size`
returns on a non-product token (Python `int` or `str`). -/
inductive SizeAtom where
  | int (n : Int)
  | str (s : String)
deriving DecidableEq, Repr

/-- A `resolve_size` result: an atom, or the tuple returned for a product
token with a non-integer factor. -/
inductive SizeVal where
  | atom (a : SizeAtom)
  | tup (elems : List SizeAtom)
deriving DecidableEq, Repr

/-- An argument to `resolve_size`: the source checks `isinstance(old_size, int)`
and otherwise treats it as a string. -/
inductive SizeIn where
  | int (n : Int)
  | str (s : String)
deriving DecidableEq, Repr

/-- An ordered mapping embedded as an association list; insertion order is the
list order. -/
abbrev Table (α : Type) : Type := List (String × α)

/-- Lookup of the first binding of a key, i.e. Python `d[k]` / `d.get(k)` for
a dict without duplicate keys. -/
def alookup (k : String) : Table α → Option α
  | [] => none
  | (k2, v) :: rest => if k2 = k then some v else alookup k rest

/-- Plain Python `d[k] = v` on an ordinary dict: replace the value in place if
the key exists (keeping its position), otherwise append. -/
def dictSet (d : Table α) (k : String) (v : α) : Table α :=
  match d with
  | [] => [(k, v)]
  | p :: rest => if p.1 = k then (k, v) :: rest else p :: dictSet rest k v

/-- Modelled from the spec: `codegen_util.UniqueOrderedDict.__setitem__` (the
class is not under `src/`).  The spec's `UniqueOrderedTable` "preserves
insertion order and fails with a `DuplicateKeyError` if a key already present
is reinserted"; the failure happens before any mutation, so the returned table
is unchanged on error. -/
def uodSetItem (d : Table α) (k : String) (v : α) : Table α × Option PyErr :=
  match alookup k d with
  | some _ => (d, some (PyErr.duplicateKey k))
  | none => (d ++ [(k, v)], none)

/-- `uodSetItem` with the error propagated into `Except`, the form used when
threading table state through the parsing passes. -/
def uodInsert (d : Table α) (k : String) (v : α) : Except PyErr (Table α) :=
  match uodSetItem d k v with
  | (_, some e) => Except.error e
  | (d2, none) => Except.ok d2

/-- The value of the LAST binding of a key in an association list; used to
state the last-writer-wins behaviour of `dict.update`. -/
def lastBind (k : String) : List (String × Int) → Option Int
  | [] => none
  | m :: rest =>
    match lastBind k rest with
    | some v => some v
    | none => if m.1 = k then some m.2 else none

/-- Decimal digits to a natural number. -/
def digitsToNat (ds : List Char) : Nat :=
  ds.foldl (fun a c => a * 10 + (c.toNat - 48)) 0

/-- Whitespace test for trimming. -/
def isWS (c : Char) : Bool :=
  (c == ' ') || (c == '\t') || (c == '\n') || (c == '\r')

/-- Trim leading and trailing whitespace from a character list. -/
def trimL (l : List Char) : List Char :=
  ((l.dropWhile isWS).reverse.dropWhile isWS).reverse

/-- Modelled from the spec: Python `int(s)` as used by
`codegen_util.try_coerce_to_num` (not under `src/`) and by the grammar layer;
parses an optional sign followed by decimal digits, `none` otherwise. -/
def parseIntOpt (s : String) : Option Int :=
  match trimL s.data with
  | [] => none
  | '-' :: ds =>
    if !ds.isEmpty && ds.all Char.isDigit then some (-(Int.ofNat (digitsToNat ds))) else none
  | ds =>
    if ds.all Char.isDigit then some (Int.ofNat (digitsToNat ds)) else none

/-- Python `s.split(sep)` for a single-character separator, over the
character list of the string. -/
def splitOnChar (c : Char) : List Char → List (List Char)
  | [] => [[]]
  | x :: xs =>
    if x = c then [] :: splitOnChar c xs
    else
      match splitOnChar c xs with
      | [] => [[x]]
      | h :: t => (x :: h) :: t

/-- Split a character list at the first occurrence of a (non-empty) separator
sequence, returning the part before and the part after; `none` if the
separator does not occur. -/
def breakOnSeq (sep : List Char) : List Char → Option (List Char × List Char)
  | [] => if sep.isEmpty then some ([], []) else none
  | c :: cs =>
    if sep.isPrefixOf (c :: cs) then some ([], (c :: cs).drop sep.length)
    else
      match breakOnSeq sep cs with
      | some (pre, post) => some (c :: pre, post)
      | none => none

/-- The five symbol tables of `BindingGenerator` (`__init__`, lines 31-35):
`enums_dict` nests one ordered member table per enum; `index_dict` nests one
PLAIN dict per struct (the inner dicts are created as `{}` by `setdefault`
in `parse_hints`, not as `UniqueOrderedDict`). -/
structure Generator where
  enums_dict : Table (Table Int)
  consts_dict : Table PyVal
  typedefs_dict : Table String
  hints_dict : Table (List SizeVal)
  index_dict : Table (Table (List SizeVal))
deriving DecidableEq, Repr

/-- A fresh `BindingGenerator()` with every table defaulted to an empty
`UniqueOrderedDict`. -/
def emptyGen : Generator :=
  { enums_dict := [], consts_dict := [], typedefs_dict := [], hints_dict := [], index_dict := [] }

/-- `BindingGenerator.get_consts_and_enums` (lines 37-42): copy the constants
table, then `dict.update` it with every enum's member table in turn.  The
underlying tables are not touched (the embedding is pure, matching the
source's `.copy()`). -/
def get_consts_and_enums (g : Generator) : Table PyVal :=
  g.enums_dict.foldl
    (fun acc e => e.2.foldl (fun a m => dictSet a m.1 (PyVal.int m.2)) acc)
    g.consts_dict

/-- Modelled from the spec: `codegen_util.recursive_dict_lookup` (not under
`src/`), which looks a name up "chasing through to a terminal value" — while
the current value is a string that is itself a key, keep chasing; fuel bounds
the chase (any bound at least the chain length gives the same result). -/
def recursiveDictLookup : Nat → String → Table PyVal → PyVal
  | 0, k, _ => PyVal.str k
  | fuel + 1, k, d =>
    match alookup k d with
    | none => PyVal.str k
    | some (PyVal.str s) => recursiveDictLookup fuel s d
    | some v => v

/-- Modelled from the spec: the same chasing lookup specialised to the
typedefs table, whose values are raw typenames (strings). -/
def recursiveTypedefLookup : Nat → String → Table String → String
  | 0, k, _ => k
  | fuel + 1, k, d =>
    match alookup k d with
    | none => k
    | some v => recursiveTypedefLookup fuel v d

/-- Modelled from the spec: `codegen_util.try_coerce_to_num(x, try_types=(int,))`
(not under `src/`): Python `int(x)` on an int is the identity, on a bool gives
0 or 1, on a string parses it; on failure the argument is returned unchanged. -/
def tryCoerceInt : PyVal → PyVal
  | PyVal.int n => PyVal.int n
  | PyVal.bool b => PyVal.int (if b then 1 else 0)
  | PyVal.str s =>
    match parseIntOpt s with
    | some n => PyVal.int n
    | none => PyVal.str s

/-- Modelled from the spec: `codegen_util.try_coerce_to_num(s)` as used on
declaration values; per the spec's ConstantsTable, stored values are integers
(or the boolean sentinel), so numeric coercion is modelled as integer parsing,
returning the string unchanged when it does not parse. -/
def tryCoerceToNum (s : String) : PyVal :=
  match parseIntOpt s with
  | some n => PyVal.int n
  | none => PyVal.str s

/-- Python truthiness of the values this module handles: zero, `False` and
the empty string are falsy. -/
def pyTruthy : PyVal → Bool
  | PyVal.int n => decide (n ≠ 0)
  | PyVal.bool b => b
  | PyVal.str s => !s.isEmpty

/-- Truthiness of a `dict.get` result: `None` (absent key) is falsy. -/
def optTruthy (o : Option PyVal) : Bool :=
  (o.map pyTruthy).getD false

/-- Injection of a coerced value into a size atom.  `tryCoerceInt` never
returns a bool, so the bool case is unreachable; it is mapped through
Python `int` for totality. -/
def sizeAtomOfPyVal : PyVal → SizeAtom
  | PyVal.int n => SizeAtom.int n
  | PyVal.str s => SizeAtom.str s
  | PyVal.bool b => SizeAtom.int (if b then 1 else 0)

/-- `BindingGenerator.resolve_size`, lines 53-54 (the branch taken for a
string token with no product operator): look the token up in the combined
constants-and-enums view, coerce to int, and fall back to the ORIGINAL token
when the coerced result is falsy (`... or old_size`). -/
def resolveSizeAtom (g : Generator) (old_size : String) : SizeAtom :=
  let size := recursiveDictLookup 10 old_size (get_consts_and_enums g)
  let c := tryCoerceInt size
  if pyTruthy c then sizeAtomOfPyVal c else SizeAtom.str old_size

/-- Is a resolved factor a Python `int`? (`isinstance(dim, int)`, line 50). -/
def sizeAtomIsInt : SizeAtom → Bool
  | SizeAtom.int _ => true
  | SizeAtom.str _ => false

/-- `BindingGenerator.resolve_size` (lines 44-54).  An int is returned
unchanged; a string containing `*` is split on `*` and each part resolved by
a recursive call — each part is separator-free (`mem_splitOnChar_ne_sep`
below), so those recursive calls take the final, non-product branch, embedded
here as `resolveSizeAtom`.  If every factor is an int the source evaluates
`int(np.prod(sizes))`, which raises `NameError` because the module never
imports numpy as `np`; otherwise the tuple of factors is returned. -/
def resolve_size (g : Generator) : SizeIn → Except PyErr SizeVal
  | SizeIn.int n => Except.ok (SizeVal.atom (SizeAtom.int n))
  | SizeIn.str s =>
    if s.data.contains '*' then
      let sizes := (splitOnChar '*' s.data).map (fun p => resolveSizeAtom g (String.mk p))
      if sizes.all sizeAtomIsInt then Except.error (PyErr.nameError "np")
      else Except.ok (SizeVal.tup sizes)
    else Except.ok (SizeVal.atom (resolveSizeAtom g s))

/-- The dimension argument of `get_shape_tuple`: either a
`pyparsing.ParseResults` holding several dimension tokens, or a single
token (lines 58-61). -/
inductive ShapeArg where
  | parseResults (dims : List SizeIn)
  | single (s : SizeIn)
deriving DecidableEq, Repr

/-- Sequence a list of fallible results, propagating the first error — the
behaviour of the source's comprehension over `resolve_size` calls. -/
def exceptList : List (Except PyErr SizeVal) → Except PyErr (List SizeVal)
  | [] => Except.ok []
  | Except.error e :: _ => Except.error e
  | Except.ok v :: rest => (exceptList rest).map (fun l => v :: l)

/-- `BindingGenerator.get_shape_tuple`, lines 58-61: the tuple of resolved
dimensions, before the squeeze filter. -/
def raw_shape (g : Generator) : ShapeArg → Except PyErr (List SizeVal)
  | ShapeArg.parseResults dims => exceptList (dims.map (resolve_size g))
  | ShapeArg.single s => (resolve_size g s).map (fun v => [v])

/-- `BindingGenerator.get_shape_tuple` (lines 56-62): resolve each dimension,
then keep `d` iff `not squeeze or d != 1` (line 62). -/
def get_shape_tuple (g : Generator) (old_size : ShapeArg) (squeeze : Bool) :
    Except PyErr (List SizeVal) :=
  (raw_shape g old_size).map
    (List.filter (fun d => !squeeze || decide (d ≠ SizeVal.atom (SizeAtom.int 1))))

/-- `BindingGenerator.resolve_typename` (lines 64-72), with
`header_parsing.C_TO_CTYPES` — a fixed native-to-foreign type table not under
`src/` — passed as the `cToCtypes` argument (Modelled from the spec: "a fixed
table mapping native primitive type spellings to the target foreign-type
vocabulary").  The boolean result records whether the non-fatal
`logging.warning` of lines 69-70 fires, i.e. whether the final result equals
the input; the (possibly unresolved) name is returned either way. -/
def resolve_typename (g : Generator) (cToCtypes : Table String) (old : String) :
    String × Bool :=
  let n1 := recursiveTypedefLookup 10 old g.typedefs_dict
  let n2 := (alookup n1 cToCtypes).getD n1
  (n2, decide (n2 = old))

/-- One member of a parsed enum block, as produced by the grammar layer:
a name, an optional explicit value, and an optional bit-shift operand pair
`(a, b)` meaning `a << b` (spec section 4.1: ENUM_DECL).  Presence of an
operand models Python truthiness of the corresponding pyparsing token. -/
structure EnumMemberTok where
  name : String
  value : Option Int
  bit_lshift : Option (Int × Nat)
deriving DecidableEq, Repr

/-- A parsed enum block: a name plus ordered members. -/
structure EnumTok where
  name : String
  members : List EnumMemberTok
deriving DecidableEq, Repr

/-- The member loop of `BindingGenerator.parse_enums` (lines 93-101): the
running `value` starts as given, a bit-shift member sets it to `a << b`
(`a * 2 ^ b`), an explicit member sets it to its value, any other member
increments it; each member is then inserted into the block's ordered member
table (duplicates fail). -/
def parseEnumsMembers (value : Int) (members : Table Int) :
    List EnumMemberTok → Except PyErr (Table Int)
  | [] => Except.ok members
  | m :: ms =>
    let value :=
      match m.bit_lshift with
      | some (a, b) => a * ((2 : Int) ^ b)
      | none =>
        match m.value with
        | some v => v
        | none => value + 1
    match uodInsert members m.name value with
    | Except.error e => Except.error e
    | Except.ok members2 => parseEnumsMembers value members2 ms

/-- `BindingGenerator.parse_enums` (lines 87-102) over the token trees the
grammar scan yields: each enum block is folded through `parseEnumsMembers`
with the running value initialised to 0 (line 93) and recorded in
`enums_dict` (duplicate enum names fail). -/
def parse_enums (g : Generator) : List EnumTok → Except PyErr Generator
  | [] => Except.ok g
  | e :: es =>
    match parseEnumsMembers 0 [] e.members with
    | Except.error err => Except.error err
    | Except.ok members =>
      match uodInsert g.enums_dict e.name members with
      | Except.error err => Except.error err
      | Except.ok ed => parse_enums { g with enums_dict := ed } es

/-- Modelled from the spec: the member grammar of `header_parsing.ENUM_DECL`
(not under `src/`) — each member "optionally carrying an explicit value, or a
bit-shift pair (`a`, `b` meaning value = a shifted left by b bits), or
neither"; concretely `NAME`, `NAME = INT` or `NAME = A<<B`. -/
def parseEnumMemberTok (m : String) : EnumMemberTok :=
  match breakOnSeq ['<', '<'] m.data with
  | some (lhs, rhs) =>
    let b := parseIntOpt (String.mk rhs)
    (match breakOnSeq ['='] lhs with
     | some (nm, a) =>
       { name := String.mk (trimL nm), value := none,
         bit_lshift :=
           match parseIntOpt (String.mk a), b with
           | some av, some bv => if 0 ≤ bv then some (av, bv.toNat) else none
           | _, _ => none }
     | none => { name := String.mk (trimL lhs), value := none, bit_lshift := none })
  | none =>
    match breakOnSeq ['='] m.data with
    | some (nm, v) =>
      { name := String.mk (trimL nm), value := parseIntOpt (String.mk v), bit_lshift := none }
    | none => { name := String.mk (trimL m.data), value := none, bit_lshift := none }

/-- Opening brace character (written by code point to keep brace characters
out of string literals). -/
def lbrace : Char := Char.ofNat 123

/-- Closing brace character. -/
def rbrace : Char := Char.ofNat 125

/-- Modelled from the spec: the scan of `header_parsing.ENUM_DECL` over raw
header text (grammar layer, not under `src/`): each `enum NAME ... ;` block
found in the text yields one token tree, with the comma-separated member list
taken between the braces; text matching no grammar is skipped.  Fuel bounds
the scan loop by the text length. -/
def scanEnumsF : Nat → List Char → List EnumTok
  | 0, _ => []
  | f + 1, l =>
    match breakOnSeq ("enum ".data) l with
    | none => []
    | some (_, rest1) =>
      match breakOnSeq [lbrace] rest1 with
      | none => []
      | some (namePart, rest2) =>
        match breakOnSeq [rbrace] rest2 with
        | none => []
        | some (body, rest3) =>
          { name := String.mk (trimL namePart),
            members :=
              (((splitOnChar ',' body).map (fun mc => String.mk (trimL mc))).filter
                (fun s => !s.isEmpty)).map parseEnumMemberTok } :: scanEnumsF f rest3

/-- Scan a header source string for enum declarations. -/
def scanEnums (src : String) : List EnumTok :=
  scanEnumsF src.data.length src.data

/-- A token tree consumed by `_recurse_into_conditionals`: the source
duck-types on the `predicate`, `typename` and `value` attributes, with the
empty string standing for an absent attribute (pyparsing's default); a
conditional token carries two branch token lists. -/
inductive DeclTok where
  | mk (predicate : String) (if_true : List DeclTok) (if_false : List DeclTok)
      (name : String) (typename : String) (value : String)

/-- `BindingGenerator._recurse_into_conditionals` (lines 110-126), walking a
token list and threading the generator state.  A conditional token looks its
predicate up in the combined constants-and-enums view and recurses into
exactly one branch (line 113-118); a typedef token records into
`typedefs_dict`; a value token coerces and records into `consts_dict` unless
the coercion yields a string; a bare name records the `True` sentinel.  Fuel
decreases on every step; any fuel at least the total token count gives the
run's result (the fuel-out error stands for Python's recursion limit and is
never reached at the bounds used here). -/
def recurse_into_conditionals : Nat → Generator → List DeclTok → Except PyErr Generator
  | _, g, [] => Except.ok g
  | 0, _, _ :: _ => Except.error PyErr.recursionError
  | f + 1, g, DeclTok.mk pred ift iff name tyname value :: ts =>
    let head : Except PyErr Generator :=
      if pred ≠ "" then
        if optTruthy (alookup pred (get_consts_and_enums g)) then
          recurse_into_conditionals f g ift
        else
          recurse_into_conditionals f g iff
      else if tyname ≠ "" then
        (uodInsert g.typedefs_dict name tyname).map
          (fun td => { g with typedefs_dict := td })
      else if value ≠ "" then
        match tryCoerceToNum value with
        | PyVal.str _ => Except.ok g
        | v => (uodInsert g.consts_dict name v).map (fun cd => { g with consts_dict := cd })
      else
        (uodInsert g.consts_dict name (PyVal.bool true)).map
          (fun cd => { g with consts_dict := cd })
    head.bind (fun g2 => recurse_into_conditionals f g2 ts)

/-- One member of an x-macro table token: a field name and its dimension
specifier. -/
structure XMember where
  name : String
  dims : ShapeArg
deriving DecidableEq, Repr

/-- An x-macro table token: the macro's name plus its ordered members. -/
structure XMacroTok where
  name : String
  members : List XMember
deriving DecidableEq, Repr

/-- Modelled from the spec: `codegen_util.is_macro_pointer` (not under
`src/`) — whether an x-macro's "name marks [it] as describing array-valued
struct fields", modelled as carrying the pointer-table suffix. -/
def is_pointer_xmacro (name : String) : Bool :=
  ("_POINTERS".data).isSuffixOf name.data

/-- Modelled from the spec: `codegen_util.macro_struct_name` (not under
`src/`) — the lower-cased struct name of a pointer x-macro (spec: IndexTable
keys are "struct name (lower-cased)"), modelled as the macro name with the
pointer-table suffix removed, lower-cased. -/
def xmacro_struct_name (name : String) : String :=
  String.mk ((name.data.take (name.data.length - ("_POINTERS".data).length)).map Char.toLower)

/-- The body of the member loop of `BindingGenerator.parse_hints`
(lines 79-85): resolve the member's squeezed shape, insert it into
`hints_dict` (duplicates fail), and for a pointer x-macro additionally write
it into the struct's inner index table — created at most once by
`setdefault(struct_name, {})` and thereafter an ordinary dict, so the field
write never raises a duplicate-key failure. -/
def parseHintsMember (g : Generator) (xmName : String) (m : XMember) :
    Except PyErr Generator :=
  (get_shape_tuple g m.dims true).bind (fun shape =>
    (uodInsert g.hints_dict m.name shape).bind (fun hd =>
      let g2 := { g with hints_dict := hd }
      if is_pointer_xmacro xmName then
        let structName := xmacro_struct_name xmName
        let inner := (alookup structName g2.index_dict).getD []
        Except.ok { g2 with index_dict := dictSet g2.index_dict structName (dictSet inner m.name shape) }
      else Except.ok g2))

/-- The member loop of `parse_hints` over one x-macro token. -/
def parseHintsMembers (g : Generator) (xmName : String) :
    List XMember → Except PyErr Generator
  | [] => Except.ok g
  | m :: ms => (parseHintsMember g xmName m).bind (fun g2 => parseHintsMembers g2 xmName ms)

/-- `BindingGenerator.parse_hints` (lines 74-85) over the token trees the
x-macro grammar scan yields. -/
def parse_hints (g : Generator) : List XMacroTok → Except PyErr Generator
  | [] => Except.ok g
  | xm :: xms => (parseHintsMembers g xm.name xm.members).bind (fun g2 => parse_hints g2 xms)

/-- Parts produced by a single-character split never contain the separator:
this is why the recursive `resolve_size` calls on split parts always take the
non-product branch (see the doc comment of `resolve_size`). -/
theorem mem_splitOnChar_ne_sep (c : Char) (l : List Char) :
    ∀ p ∈ splitOnChar c l, c ∉ p := by
  induction l with
  | nil =>
    intro p hp
    simp [splitOnChar] at hp
    simp [hp]
  | cons x xs ih =>
    intro p hp
    simp only [splitOnChar] at hp
    by_cases hx : x = c
    · rw [if_pos hx] at hp
      rcases List.mem_cons.mp hp with h | h
      · simp [h]
      · exact ih p h
    · rw [if_neg hx] at hp
      cases hsp : splitOnChar c xs with
      | nil =>
        rw [hsp] at hp
        simp at hp
        subst hp
        simp
        exact fun he => hx he.symm
      | cons a t =>
        rw [hsp] at hp
        rcases List.mem_cons.mp hp with h | h
        · subst h
          intro hc
          rcases List.mem_cons.mp hc with h1 | h1
          · exact hx h1.symm
          · exact ih a (by rw [hsp]; exact List.mem_cons_self a t) h1
        · exact ih p (by rw [hsp]; exact List.mem_cons.mpr (Or.inr h))

/-- Claim C1: on the header text `enum E { X, Y=10, Z };` the code yields the
enum table `{"E": {"X": 1, "Y": 10, "Z": 11}}` — the first member lacking a
value receives 1, not the 0 the claim states, because `parse_enums`
initialises the running value to 0 (line 93) and increments it before
recording the first valueless member. -/
theorem c1_enum_header_first_valueless_member_gets_one :
    parse_enums emptyGen (scanEnums "enum E \x7b X, Y=10, Z \x7d;")
      = Except.ok { emptyGen with enums_dict := [("E", [("X", 1), ("Y", 10), ("Z", 11)])] } := by
  decide

/-- Claim C2: with constants `A=2` and `B=3` known, `resolve_size("A*B")`
does not return 6: every factor resolves to an integer, so the source
evaluates `int(np.prod(sizes))` (line 51) and raises `NameError` because the
module never imports numpy as `np`. -/
theorem c2_all_int_product_raises_name_error :
    resolve_size { emptyGen with consts_dict := [("A", PyVal.int 2), ("B", PyVal.int 3)] }
        (SizeIn.str "A*B")
      = Except.error (PyErr.nameError "np") := by
  decide

/-- Claim C3: for every product-form size token with at least one factor not
resolving to an integer, `resolve_size` does not fail: it returns the ordered
tuple of the mixed resolved/unresolved factors. -/
theorem c3_mixed_product_returns_tuple_of_factors
    (g : Generator) (s : String)
    (hstar : '*' ∈ s.data)
    (hmix : ((splitOnChar '*' s.data).map (fun p => resolveSizeAtom g (String.mk p))).all
        sizeAtomIsInt = false) :
    resolve_size g (SizeIn.str s)
      = Except.ok (SizeVal.tup
          ((splitOnChar '*' s.data).map (fun p => resolveSizeAtom g (String.mk p)))) := by
  simp [resolve_size, hstar, hmix]

/-- Witness for C3: `resolve_size("A*B")` with `A=2` known and `B` unknown
returns the tuple `(2, "B")`. -/
theorem c3_witness :
    resolve_size { emptyGen with consts_dict := [("A", PyVal.int 2)] } (SizeIn.str "A*B")
      = Except.ok (SizeVal.tup [SizeAtom.int 2, SizeAtom.str "B"]) :=
  c3_mixed_product_returns_tuple_of_factors _ "A*B" (by decide) (by decide)

/-- Claim C4: inserting a key already present in an ordered symbol table (all
five tables are instances of the same `UniqueOrderedDict` embedding) raises
the duplicate-key failure, and the table after the failed insertion still maps
the key to its prior value. -/
theorem c4_duplicate_insert_fails_and_preserves_entry
    {α : Type} (d : Table α) (k : String) (v0 v : α)
    (h : alookup k d = some v0) :
    (uodSetItem d k v).2 = some (PyErr.duplicateKey k) ∧
      alookup k (uodSetItem d k v).1 = some v0 := by
  simp [uodSetItem, h]

/-- Witness for C4: reinserting `mjNGROUP` fails and the prior value 6
survives. -/
theorem c4_witness :
    (uodSetItem [("mjNGROUP", (6 : Int))] "mjNGROUP" 7).2
        = some (PyErr.duplicateKey "mjNGROUP") ∧
      alookup "mjNGROUP" (uodSetItem [("mjNGROUP", (6 : Int))] "mjNGROUP" 7).1 = some 6 :=
  c4_duplicate_insert_fails_and_preserves_entry _ _ _ _ (by decide)

/-- Claim C5: for a conditional token, when the predicate is absent from the
combined constants-and-enums view or maps to a falsy value, evaluation is
exactly evaluation of the `if_false` branch followed by the remaining tokens
— the `if_true` branch never contributes to any table — and symmetrically for
a truthy predicate. -/
theorem c5_conditional_recurses_into_single_branch
    (f : Nat) (g : Generator) (pred : String) (brT brF : List DeclTok)
    (name tyname value : String) (ts : List DeclTok)
    (hpred : pred ≠ "") :
    (optTruthy (alookup pred (get_consts_and_enums g)) = false →
      recurse_into_conditionals (f + 1) g (DeclTok.mk pred brT brF name tyname value :: ts)
        = (recurse_into_conditionals f g brF).bind
            (fun g2 => recurse_into_conditionals f g2 ts)) ∧
    (optTruthy (alookup pred (get_consts_and_enums g)) = true →
      recurse_into_conditionals (f + 1) g (DeclTok.mk pred brT brF name tyname value :: ts)
        = (recurse_into_conditionals f g brT).bind
            (fun g2 => recurse_into_conditionals f g2 ts)) := by
  constructor <;> intro hc <;> simp [recurse_into_conditionals, hpred, hc]

/-- Witness for C5: with `FOO` absent, only the `if_false` declaration `BAR`
enters the constants table; the `if_true` declaration `BAZ` never appears. -/
theorem c5_witness :
    optTruthy (alookup "FOO" (get_consts_and_enums emptyGen)) = false ∧
    recurse_into_conditionals 2 emptyGen
        [DeclTok.mk "FOO" [DeclTok.mk "" [] [] "BAZ" "" ""]
          [DeclTok.mk "" [] [] "BAR" "" ""] "" "" ""]
      = (recurse_into_conditionals 1 emptyGen [DeclTok.mk "" [] [] "BAR" "" ""]).bind
          (fun g2 => recurse_into_conditionals 1 g2 []) ∧
    recurse_into_conditionals 2 emptyGen
        [DeclTok.mk "FOO" [DeclTok.mk "" [] [] "BAZ" "" ""]
          [DeclTok.mk "" [] [] "BAR" "" ""] "" "" ""]
      = Except.ok { emptyGen with consts_dict := [("BAR", PyVal.bool true)] } :=
  ⟨by decide,
   (c5_conditional_recurses_into_single_branch 1 emptyGen "FOO"
      [DeclTok.mk "" [] [] "BAZ" "" ""] [DeclTok.mk "" [] [] "BAR" "" ""]
      "" "" "" [] (by decide)).1 (by decide),
   by decide⟩

/-- Claim C6: `resolve_typename` chains through typedef indirection and the
native-to-foreign type table — with typedefs `A -> B`, `B -> "int"` and native
entry `"int" -> "i32"` it returns `"i32"` — and whenever the final result
equals the original input it still returns that unresolved name, with the
warning flag set (the failure is only a logged warning, never an error). -/
theorem c6_resolve_typename_chains_and_returns_unresolved :
    resolve_typename { emptyGen with typedefs_dict := [("A", "B"), ("B", "int")] }
        [("int", "i32")] "A" = ("i32", false) ∧
    ∀ (g : Generator) (tbl : Table String) (s : String),
      (resolve_typename g tbl s).1 = s → resolve_typename g tbl s = (s, true) := by
  constructor
  · decide
  · intro g tbl s h
    have h2 : resolve_typename g tbl s
        = ((resolve_typename g tbl s).1, decide ((resolve_typename g tbl s).1 = s)) := rfl
    rw [h] at h2
    simpa using h2

/-- Witness for C6: an unresolvable name is returned unchanged with the
warning flag set. -/
theorem c6_witness : resolve_typename emptyGen [] "mjtNum" = ("mjtNum", true) :=
  c6_resolve_typename_chains_and_returns_unresolved.2 emptyGen [] "mjtNum" (by decide)

/-- Setting a key makes it look up to the new value. -/
theorem alookup_dictSet_self {α : Type} (d : Table α) (k : String) (v : α) :
    alookup k (dictSet d k v) = some v := by
  induction d with
  | nil => simp [dictSet, alookup]
  | cons p rest ih =>
    by_cases h : p.1 = k
    · simp [dictSet, h, alookup]
    · simp [dictSet, h, alookup, ih]

/-- Setting one key leaves lookups of other keys unchanged. -/
theorem alookup_dictSet_ne {α : Type} (d : Table α) (k k2 : String) (v : α)
    (h : k ≠ k2) :
    alookup k2 (dictSet d k v) = alookup k2 d := by
  induction d with
  | nil => simp [dictSet, alookup, h]
  | cons p rest ih =>
    simp only [dictSet]
    by_cases hp : p.1 = k
    · rw [if_pos hp]
      simp only [alookup, hp]
      simp [h]
    · rw [if_neg hp]
      simp only [alookup, ih]

/-- The last binding of a key in an appended list: the right-hand part wins
when it binds the key at all. -/
theorem lastBind_append (k : String) (l1 l2 : List (String × Int)) :
    lastBind k (l1 ++ l2)
      = match lastBind k l2 with
        | some v => some v
        | none => lastBind k l1 := by
  induction l1 with
  | nil =>
    simp only [List.nil_append, lastBind]
    cases lastBind k l2 <;> simp
  | cons m rest ih =>
    simp only [List.cons_append, lastBind, List.append_eq]
    rw [ih]
    cases lastBind k l2 <;> cases lastBind k rest <;> simp

/-- Looking a key up after folding `dict.update`-style writes of one member
list over a table: the last write of the key wins; absent that, the original
table answers. -/
theorem alookup_foldl_dictSet (l : List (String × Int)) (d : Table PyVal) (k : String) :
    alookup k (l.foldl (fun a m => dictSet a m.1 (PyVal.int m.2)) d)
      = match lastBind k l with
        | some v => some (PyVal.int v)
        | none => alookup k d := by
  induction l generalizing d with
  | nil => simp [lastBind]
  | cons m rest ih =>
    simp only [List.foldl_cons, lastBind, ih]
    cases h : lastBind k rest with
    | some v => simp
    | none =>
      simp only
      by_cases hk : m.1 = k
      · rw [if_pos hk, ← hk, alookup_dictSet_self]
      · rw [if_neg hk, alookup_dictSet_ne _ _ _ _ hk]

/-- Looking a key up in the combined view built by folding every enum's member
table over the constants table: the key's last enum-member binding (in table
order) wins; absent any, the constants table answers. -/
theorem alookup_enum_foldl (E : Table (Table Int)) (d : Table PyVal) (k : String) :
    alookup k (E.foldl
        (fun acc e => e.2.foldl (fun a m => dictSet a m.1 (PyVal.int m.2)) acc) d)
      = match lastBind k ((E.map Prod.snd).flatten) with
        | some v => some (PyVal.int v)
        | none => alookup k d := by
  induction E generalizing d with
  | nil => simp [lastBind]
  | cons e rest ih =>
    simp only [List.foldl_cons, List.map_cons, List.flatten_cons]
    rw [ih, lastBind_append, alookup_foldl_dictSet]
    cases lastBind k ((rest.map Prod.snd).flatten) <;> cases lastBind k e.2 <;> simp

/-- Claim C7: in the combined constants-and-enums view, a name that is both a
constant and an enum member answers with the enum member's value (its last
enum binding, by copy-then-update order); the underlying tables are untouched
(`get_consts_and_enums` is a pure function of the generator: the source
operates on a `.copy()` of the constants table). -/
theorem c7_enum_member_shadows_constant
    (g : Generator) (name : String) (c : PyVal) (v : Int)
    (hconst : alookup name g.consts_dict = some c)
    (henum : lastBind name ((g.enums_dict.map Prod.snd).flatten) = some v) :
    alookup name (get_consts_and_enums g) = some (PyVal.int v) := by
  rw [get_consts_and_enums, alookup_enum_foldl, henum]

/-- Witness for C7: constant `K=5` shadowed by enum member `K=9`. -/
theorem c7_witness :
    alookup "K" (get_consts_and_enums
        { emptyGen with
            consts_dict := [("K", PyVal.int 5)],
            enums_dict := [("E", [("K", 9)])] })
      = some (PyVal.int 9) :=
  c7_enum_member_shadows_constant _ "K" (PyVal.int 5) 9 (by decide) (by decide)

/-- Claim C8: whatever list of resolved dimensions `get_shape_tuple` produces
without squeezing, squeezing filters out exactly the dimensions equal to the
integer 1 and keeps all others in order; with `squeeze=false` nothing is
dropped (the hypothesis exhibits the full resolved tuple). -/
theorem c8_squeeze_drops_exactly_unit_dims
    (g : Generator) (arg : ShapeArg) (l : List SizeVal)
    (h : get_shape_tuple g arg false = Except.ok l) :
    get_shape_tuple g arg true
      = Except.ok (l.filter (fun d => decide (d ≠ SizeVal.atom (SizeAtom.int 1)))) := by
  unfold get_shape_tuple at h ⊢
  cases hr : raw_shape g arg with
  | error e =>
    rw [hr] at h
    simp [Except.map] at h
  | ok l0 =>
    rw [hr] at h
    simp only [Except.map, Bool.not_false, Bool.true_or, List.filter_true,
      Except.ok.injEq] at h
    simp only [Except.map, Bool.not_true, Bool.false_or, h]

/-- Witness for C8: a specifier resolving to `(1, 4, 1)` squeezes to `(4,)`. -/
theorem c8_witness :
    get_shape_tuple emptyGen
        (ShapeArg.parseResults [SizeIn.int 1, SizeIn.int 4, SizeIn.int 1]) true
      = Except.ok [SizeVal.atom (SizeAtom.int 4)] :=
  c8_squeeze_drops_exactly_unit_dims emptyGen
    (ShapeArg.parseResults [SizeIn.int 1, SizeIn.int 4, SizeIn.int 1])
    [SizeVal.atom (SizeAtom.int 1), SizeVal.atom (SizeAtom.int 4), SizeVal.atom (SizeAtom.int 1)]
    (by decide)

/-- Claim C9: a non-product size token whose lookup in the combined view
coerces to the integer 0 resolves back to the original symbolic token — the
`... or old_size` fall-back on line 54 discards the falsy 0 — so a constant
defined as 0 behaves like an unresolved name. -/
theorem c9_zero_constant_falls_back_to_token
    (g : Generator) (s : String)
    (hstar : '*' ∉ s.data)
    (hzero : tryCoerceInt (recursiveDictLookup 10 s (get_consts_and_enums g)) = PyVal.int 0) :
    resolve_size g (SizeIn.str s) = Except.ok (SizeVal.atom (SizeAtom.str s)) := by
  simp [resolve_size, hstar, resolveSizeAtom, hzero, pyTruthy]

/-- Witness for C9: with constant `NZERO = 0`, `resolve_size("NZERO")`
returns the string `"NZERO"`, not the integer 0. -/
theorem c9_witness :
    resolve_size { emptyGen with consts_dict := [("NZERO", PyVal.int 0)] }
        (SizeIn.str "NZERO")
      = Except.ok (SizeVal.atom (SizeAtom.str "NZERO")) :=
  c9_zero_constant_falls_back_to_token _ "NZERO" (by decide) (by decide)

/-- Claim C10: two pointer x-macro tokens naming the same struct: the second
raises no duplicate-key failure on the struct name — `setdefault` creates the
struct's index entry at most once — and the members of both macros accumulate
in that single inner mapping (an ordinary dict without duplicate rejection). -/
theorem c10_pointer_xmacros_share_struct_entry
    (pname n1 n2 : String) (k1 k2 : Int)
    (hp : is_pointer_xmacro pname = true)
    (hn : n1 ≠ n2) (hk1 : k1 ≠ 1) (hk2 : k2 ≠ 1) :
    parse_hints emptyGen
        [⟨pname, [⟨n1, ShapeArg.single (SizeIn.int k1)⟩]⟩,
         ⟨pname, [⟨n2, ShapeArg.single (SizeIn.int k2)⟩]⟩]
      = Except.ok { emptyGen with
          hints_dict := [(n1, [SizeVal.atom (SizeAtom.int k1)]),
                         (n2, [SizeVal.atom (SizeAtom.int k2)])],
          index_dict := [(xmacro_struct_name pname,
            [(n1, [SizeVal.atom (SizeAtom.int k1)]),
             (n2, [SizeVal.atom (SizeAtom.int k2)])])] } := by
  simp [parse_hints, parseHintsMembers, parseHintsMember, get_shape_tuple, raw_shape,
    resolve_size, uodInsert, uodSetItem, alookup, dictSet, hp, hn, hk1, hk2, emptyGen,
    Except.map, Except.bind]

/-- Witness for C10: two `MJDATA_POINTERS` macros contributing `qpos` and
`qvel` to the single `mjdata` index entry. -/
theorem c10_witness :
    parse_hints emptyGen
        [⟨"MJDATA_POINTERS", [⟨"qpos", ShapeArg.single (SizeIn.int 7)⟩]⟩,
         ⟨"MJDATA_POINTERS", [⟨"qvel", ShapeArg.single (SizeIn.int 6)⟩]⟩]
      = Except.ok { emptyGen with
          hints_dict := [("qpos", [SizeVal.atom (SizeAtom.int 7)]),
                         ("qvel", [SizeVal.atom (SizeAtom.int 6)])],
          index_dict := [(xmacro_struct_name "MJDATA_POINTERS",
            [("qpos", [SizeVal.atom (SizeAtom.int 7)]),
             ("qvel", [SizeVal.atom (SizeAtom.int 6)])])] } :=
  c10_pointer_xmacros_share_struct_entry "MJDATA_POINTERS" "qpos" "qvel" 7 6
    (by decide) (by decide) (by decide) (by decide)
